import Mathlib

/-!
Shallow embedding of `src/deal_qa_validator.py`: a spreadsheet-vs-API deal
validator.  Pure fragments of the script become Lean functions; the two
effectful boundaries are made explicit:

* the network call of `requests.get` is an oracle `net : String → FetchResult`
  giving, per deal id, either the parsed 2xx JSON body or the message of a
  `RequestException` (transport error or non-2xx after `raise_for_status`);
* `print` output is returned as a list of emitted lines.

Cell and JSON scalar values are one inductive `Scalar`; a pandas missing
value is `Option.none` at call sites that can receive Python `None`, and
`Scalar.nan` models a float NaN read from an empty spreadsheet cell.
-/

namespace DealQA

/-- A scalar value as it reaches the script: a string, an integer, a pandas
NaN (empty cell), or a native date value (`pandas.Timestamp` at midnight, the
shape `read_excel` produces for date cells). -/
inductive Scalar where
  | str (v : String)
  | int (v : Int)
  | nan
  | ts (y m d : Nat)
  deriving DecidableEq

/-- The decimal digit character for `n % 10`. -/
def dig (n : Nat) : Char := Char.ofNat (48 + n % 10)

/-- Numeric value of a digit character. -/
def digVal (c : Char) : Nat := c.toNat - 48

/-- `strftime('%Y-%m-%d')`: the canonical `YYYY-MM-DD` rendering with the
year zero-padded to four digits (the documented `%Y`/`%m`/`%d` field widths
for the years this tool handles). -/
def renderDate (y m d : Nat) : String :=
  ⟨[dig (y / 1000), dig (y / 100), dig (y / 10), dig y, '-',
    dig (m / 10), dig m, '-', dig (d / 10), dig d]⟩

/-- Gregorian leap-year rule, as `datetime` applies it. -/
def isLeapYear (y : Nat) : Bool := y % 4 = 0 && (y % 100 ≠ 0 || y % 400 = 0)

def daysInMonth (y m : Nat) : Nat :=
  if m = 2 then (if isLeapYear y then 29 else 28)
  else if m = 4 ∨ m = 6 ∨ m = 9 ∨ m = 11 then 30
  else 31

/-- The `datetime` constructor's range check on a year/month/day triple. -/
def validDateB (y m d : Nat) : Bool :=
  1 ≤ y && y ≤ 9999 && 1 ≤ m && m ≤ 12 && 1 ≤ d && d ≤ daysInMonth y m

/-- Models `datetime.date.fromisoformat`-style parsing as
`datetime.fromisoformat` applies it to the date strings this script can meet
once strings containing `T` or a space were already intercepted: the extended
form `YYYY-MM-DD` (every Python version) and the basic form `YYYYMMDD`
(accepted since Python 3.11).  Returns the parsed (year, month, day) or
`none` when the call would raise `ValueError`. -/
def fromisoformat (s : String) : Option (Nat × Nat × Nat) :=
  match s.data with
  | [a, b, c, d, s1, e, f, s2, g, i] =>
    if s1 == '-' && s2 == '-' && a.isDigit && b.isDigit && c.isDigit &&
        d.isDigit && e.isDigit && f.isDigit && g.isDigit && i.isDigit then
      let yy := 1000 * digVal a + 100 * digVal b + 10 * digVal c + digVal d
      let mm := 10 * digVal e + digVal f
      let dd := 10 * digVal g + digVal i
      if validDateB yy mm dd then some (yy, mm, dd) else none
    else none
  | [a, b, c, d, e, f, g, i] =>
    if a.isDigit && b.isDigit && c.isDigit && d.isDigit && e.isDigit &&
        f.isDigit && g.isDigit && i.isDigit then
      let yy := 1000 * digVal a + 100 * digVal b + 10 * digVal c + digVal d
      let mm := 10 * digVal e + digVal f
      let dd := 10 * digVal g + digVal i
      if validDateB yy mm dd then some (yy, mm, dd) else none
    else none
  | _ => none

/-- Python `s.strip()`: drop whitespace from both ends. -/
def pyStrip (s : String) : String :=
  ⟨((s.data.dropWhile Char.isWhitespace).reverse.dropWhile Char.isWhitespace).reverse⟩

/-- Python `c in s` for a one-character needle. -/
def hasChar (s : String) (c : Char) : Bool := s.data.contains c

/-- Python `s.split(c)[0]`: everything before the first occurrence of `c`. -/
def splitHead (s : String) (c : Char) : String := ⟨s.data.takeWhile (fun x => x ≠ c)⟩

/-- `pd.isna` on the values `normalize_date` receives: Python `None`
(modelled `none`) and a float NaN are the missing values. -/
def pdIsNa : Option Scalar → Bool
  | none => true
  | some .nan => true
  | some _ => false

/-- Python `str(v)` of a scalar.  `str` of a midnight `pandas.Timestamp`
prints the date followed by `" 00:00:00"`. -/
def pyStr : Scalar → String
  | .str v => v
  | .int v => toString v
  | .nan => "nan"
  | .ts y m d => renderDate y m d ++ " 00:00:00"

/-- `normalize_date` of `src/deal_qa_validator.py` (lines 11-29).
A missing input (`pd.isna`) returns `None`, modelled `none`.  A string is
truncated at the first `T`, else at the first space, else parsed with
`datetime.fromisoformat` and re-rendered; a `ValueError` there is caught and
the string itself (`str(date_obj)`) is returned.  An `int` has no `strftime`,
so the `AttributeError` is caught and `str(date_obj)` returned; a native date
value is rendered through `strftime('%Y-%m-%d')`. -/
def normalize_date : Option Scalar → Option String
  | none => none
  | some .nan => none
  | some (.str v) =>
    if hasChar v 'T' then some (splitHead v 'T')
    else if hasChar v ' ' then some (splitHead v ' ')
    else
      match fromisoformat v with
      | some (y, m, d) => some (renderDate y m d)
      | none => some v
  | some (.int v) => some (toString v)
  | some (.ts y m d) => some (renderDate y m d)

/-- ASCII lowercasing of one character, as `str.lower()` acts on the ASCII
range the bearer check involves. -/
def lowerChar (c : Char) : Char :=
  if 65 ≤ c.toNat ∧ c.toNat ≤ 90 then Char.ofNat (c.toNat + 32) else c

/-- Python `s.lower()` (on ASCII text). -/
def lowerAscii (s : String) : String := ⟨s.data.map lowerChar⟩

/-- Python `s.startswith(p)`. -/
def startsWithL (s p : String) : Bool := p.data.isPrefixOf s.data

/-- The Authorization header value `get_deal_details` sends (lines 36-46):
the token itself when `auth_token.lower().startswith("bearer ")`, else
`f"Bearer {auth_token}"`. -/
def authHeader (auth_token : String) : String :=
  if startsWithL (lowerAscii auth_token) "bearer " then auth_token
  else "Bearer " ++ auth_token

/-- The headers dict of the GET request after the prefix fix-up. -/
def requestHeaders (auth_token : String) : List (String × String) :=
  [("Authorization", authHeader auth_token), ("Content-Type", "application/json")]

/-- Occurrences of `pat` in `l` (a new count at every position). -/
def countSub (pat : List Char) : List Char → Nat
  | [] => 0
  | c :: t => (if pat.isPrefixOf (c :: t) then 1 else 0) + countSub pat t

/-- Case-insensitive occurrences of `"Bearer "` in `s`. -/
def bearerCount (s : String) : Nat := countSub "bearer ".data (lowerAscii s).data

/-- A JSON object body: field name to value, `none` modelling JSON `null`. -/
abbrev ApiData := List (String × Option Scalar)

/-- What one `requests.get` comes back as: the parsed JSON object of a 2xx
response, or the message of the `RequestException` raised on a transport
error or by `raise_for_status` on a non-2xx status. -/
inductive FetchResult where
  | ok (body : ApiData)
  | err (msg : String)

/-- `get_deal_details` (lines 31-54) given the outcome of its one network
call: returns the lines it prints alongside the JSON body, or `None`
(modelled `none`) after catching and printing a `RequestException`. -/
def get_deal_details (deal_id : String) (net : FetchResult) :
    List String × Option ApiData :=
  match net with
  | .ok body => ([], some body)
  | .err e => (["Error fetching deal " ++ deal_id ++ ": " ++ e], none)

/-- A loaded spreadsheet row: column name to cell value.  An absent column
makes `row.get` return `None` (`none` here); an empty cell reads as NaN. -/
abbrev Row := List (String × Scalar)

def rowGet (row : Row) (k : String) : Option Scalar := row.lookup k

/-- `api_data.get(field)`: `None` for an absent key and for a JSON `null`. -/
def apiGet (d : ApiData) (k : String) : Option Scalar :=
  match d.lookup k with
  | some v => v
  | none => none

/-- One entry of the `checks` table in `validate_deal`. -/
structure FieldCheck where
  excel_col : String
  api_field : String
  label : String
  is_date : Bool := false
  deriving DecidableEq

/-- The fixed check list of `validate_deal` (lines 64-83). -/
def checks : List FieldCheck :=
  [{ excel_col := "Deal Name", api_field := "name", label := "Deal Name" },
   { excel_col := "CPM (INR)", api_field := "cpm", label := "CPM" },
   { excel_col := "Start Date (MM-DD-YY)", api_field := "startDate",
     label := "Start Date", is_date := true },
   { excel_col := "End date (MM-DD-YY)", api_field := "endDate",
     label := "End Date", is_date := true },
   { excel_col := "Budget (INR)", api_field := "budget", label := "Budget" }]

/-- `str(excel_val) if pd.notnull(excel_val) else ""` (line 95). -/
def strOfExcel : Option Scalar → String
  | none => ""
  | some .nan => ""
  | some v => pyStr v

/-- `str(api_val) if api_val is not None else ""` (line 96). -/
def strOfApi : Option Scalar → String
  | none => ""
  | some v => pyStr v

/-- A single quote character, used by the discrepancy format. -/
def sq : String := ⟨[Char.ofNat 39]⟩

/-- The loop body of `validate_deal` for one check (lines 85-99): extract the
two values, date-normalize both when the check is date-flagged, stringify
with missing treated as empty, and emit the formatted discrepancy on
inequality. -/
def evalCheck (row : Row) (api_data : ApiData) (c : FieldCheck) : Option String :=
  let excel_val := rowGet row c.excel_col
  let api_val := apiGet api_data c.api_field
  let excel_val := if c.is_date then (normalize_date excel_val).map .str else excel_val
  let api_val := if c.is_date then (normalize_date api_val).map .str else api_val
  let str_excel := strOfExcel excel_val
  let str_api := strOfApi api_val
  if str_excel ≠ str_api then
    some (c.label ++ ": Expected " ++ sq ++ str_excel ++ sq ++ ", Found " ++
      sq ++ str_api ++ sq)
  else none

/-- `validate_deal` (lines 56-101): the discrepancies of the checks, in
check order. -/
def validate_deal (row : Row) (api_data : ApiData) : List String :=
  checks.filterMap (evalCheck row api_data)

/-- One written report line. -/
structure Outcome where
  deal_id : Scalar
  status : String
  comments : String
  deriving DecidableEq

/-- Python truthiness of `api_data` at line 159: `None` and the empty dict
are both falsy. -/
def pyTruthy : Option ApiData → Bool
  | none => false
  | some d => !d.isEmpty

def joinSemi (l : List String) : String := String.intercalate "; " l

/-- Lines 156-174 of `main` for one non-skipped row: `status` starts as
`"SKIPPED"` and is reassigned on every path of the `if api_data:` branch
before the record is appended. -/
def rowOutcome (deal_id : Scalar) (row : Row) (api_data : Option ApiData) : Outcome :=
  let status := "SKIPPED"
  let comments := ""
  if pyTruthy api_data then
    let issues := validate_deal row (api_data.getD [])
    if issues.isEmpty then { deal_id := deal_id, status := "PASS", comments := comments }
    else { deal_id := deal_id, status := "FAIL", comments := joinSemi issues }
  else { deal_id := deal_id, status := "ERROR", comments := "API Request Failed" }

/-- The skip test of lines 148-150 as the code runs it:
`pd.isna(deal_id) or str(deal_id).strip() == ""`. -/
def skipB (row : Row) : Bool :=
  match rowGet row "Deal ID" with
  | none => true
  | some .nan => true
  | some v => pyStrip (pyStr v) == ""

/-- The outcome a non-skipped row contributes: fetch through the oracle,
then classify. -/
def emittedOutcome (net : String → FetchResult) (row : Row) : Outcome :=
  let v := (rowGet row "Deal ID").getD .nan
  rowOutcome v row (get_deal_details (pyStr v) (net (pyStr v))).2

/-- One iteration of the `df.iterrows()` loop (lines 147-174): `continue`
without a record when the identifier is missing/NaN or strips to empty, else
append the row's outcome. -/
def processRow (net : String → FetchResult) (row : Row) : Option Outcome :=
  match rowGet row "Deal ID" with
  | none => none
  | some .nan => none
  | some v =>
    if pyStrip (pyStr v) == "" then none
    else some (emittedOutcome net row)

/-- The whole loop: the `results` list in input-row order. -/
def processRows (net : String → FetchResult) : List Row → List Outcome
  | [] => []
  | r :: rs =>
    match processRow net r with
    | none => processRows net rs
    | some o => o :: processRows net rs

/-- Columns of `pd.DataFrame(results)` (line 177): the record keys in
insertion order — and the empty `Index` when `results` is the empty list, in
which case `to_excel` writes a sheet with no header cells at all. -/
def reportColumns (results : List Outcome) : List String :=
  if results.isEmpty then [] else ["Deal ID", "Status", "Comments"]

/-- The data lines `to_excel` writes, one per outcome, in order. -/
def reportTable (results : List Outcome) : List (List String) :=
  results.map (fun o => [pyStr o.deal_id, o.status, o.comments])

/-! ### Helper lemmas -/

theorem digit_facts : ∀ r < 10, (Char.ofNat (48 + r)).isDigit = true ∧
    (Char.ofNat (48 + r)).toNat - 48 = r ∧ Char.ofNat (48 + r) ≠ 'T' ∧
    Char.ofNat (48 + r) ≠ ' ' ∧ Char.ofNat (48 + r) ≠ '-' := by decide

theorem dig_isDigit (n : Nat) : (dig n).isDigit = true :=
  (digit_facts (n % 10) (Nat.mod_lt n (by omega))).1

theorem digVal_dig (n : Nat) : digVal (dig n) = n % 10 :=
  (digit_facts (n % 10) (Nat.mod_lt n (by omega))).2.1

theorem dig_ne_T (n : Nat) : dig n ≠ 'T' :=
  (digit_facts (n % 10) (Nat.mod_lt n (by omega))).2.2.1

theorem dig_ne_space (n : Nat) : dig n ≠ ' ' :=
  (digit_facts (n % 10) (Nat.mod_lt n (by omega))).2.2.2.1

theorem daysInMonth_le (y m : Nat) : daysInMonth y m ≤ 31 := by
  unfold daysInMonth
  split
  · split <;> omega
  · split <;> omega

theorem validDateB_iff (y m d : Nat) : validDateB y m d = true ↔
    1 ≤ y ∧ y ≤ 9999 ∧ 1 ≤ m ∧ m ≤ 12 ∧ 1 ≤ d ∧ d ≤ daysInMonth y m := by
  simp [validDateB, Bool.and_assoc, and_assoc]

theorem renderDate_hasChar (y m d : Nat) :
    hasChar (renderDate y m d) 'T' = false ∧ hasChar (renderDate y m d) ' ' = false := by
  constructor <;>
  · show List.elem _ _ = false
    rw [List.elem_eq_mem, decide_eq_false_iff_not]
    simp only [renderDate, List.mem_cons, List.not_mem_nil, or_false]
    push_neg
    refine ⟨?_, ?_, ?_, ?_, ?_, ?_, ?_, ?_, ?_, ?_⟩ <;>
      first
        | (intro h; exact absurd h.symm (dig_ne_T _))
        | (intro h; exact absurd h.symm (dig_ne_space _))
        | decide

theorem fromisoformat_renderDate (y m d : Nat) (h : validDateB y m d = true) :
    fromisoformat (renderDate y m d) = some (y, m, d) := by
  rw [validDateB_iff] at h
  obtain ⟨hy1, hy2, hm1, hm2, hd1, hd2⟩ := h
  have hd31 : d ≤ 31 := le_trans hd2 (daysInMonth_le y m)
  have e1 : digVal (dig (y / 1000)) = y / 1000 := by
    rw [digVal_dig]; omega
  have e2 : digVal (dig (y / 100)) = y / 100 % 10 := digVal_dig _
  have e3 : digVal (dig (y / 10)) = y / 10 % 10 := digVal_dig _
  have e4 : digVal (dig y) = y % 10 := digVal_dig _
  have e5 : digVal (dig (m / 10)) = m / 10 := by
    rw [digVal_dig]; omega
  have e6 : digVal (dig m) = m % 10 := digVal_dig _
  have e7 : digVal (dig (d / 10)) = d / 10 := by
    rw [digVal_dig]; omega
  have e8 : digVal (dig d) = d % 10 := digVal_dig _
  have hy : 1000 * (y / 1000) + 100 * (y / 100 % 10) + 10 * (y / 10 % 10) + y % 10 = y := by
    omega
  have hm : 10 * (m / 10) + m % 10 = m := by omega
  have hd : 10 * (d / 10) + d % 10 = d := by omega
  simp only [fromisoformat, renderDate, dig_isDigit, e1, e2, e3, e4, e5, e6, e7, e8,
    Bool.and_true, Bool.true_and, beq_self_eq_true, if_true, hy, hm, hd]
  rw [if_pos]
  rw [validDateB_iff]
  exact ⟨hy1, hy2, hm1, hm2, hd1, hd2⟩

theorem isPrefixOf_append_self (p l : List Char) : p.isPrefixOf (p ++ l) = true := by
  induction p with
  | nil => simp [List.isPrefixOf]
  | cons a as ih => simp [List.isPrefixOf, ih]

theorem lowerAscii_bearer (t : String) :
    lowerAscii ("Bearer " ++ t) = "bearer " ++ lowerAscii t := by
  show String.mk ((("Bearer " ++ t).data).map lowerChar) =
    String.mk ("bearer ".data ++ t.data.map lowerChar)
  have h : ("Bearer " ++ t).data = "Bearer ".data ++ t.data := rfl
  rw [h, List.map_append]
  have h2 : ("Bearer ".data).map lowerChar = "bearer ".data := by decide
  rw [h2]

theorem countSub_bearer (l : List Char) :
    countSub "bearer ".data ("bearer ".data ++ l) = 1 + countSub "bearer ".data l := by
  have hb : ("bearer ".data).isPrefixOf ('b' :: 'e' :: 'a' :: 'r' :: 'e' :: 'r' :: ' ' :: l) = true :=
    isPrefixOf_append_self "bearer ".data l
  have h1 : ("bearer ".data).isPrefixOf ('e' :: 'a' :: 'r' :: 'e' :: 'r' :: ' ' :: l) = false := rfl
  have h2 : ("bearer ".data).isPrefixOf ('a' :: 'r' :: 'e' :: 'r' :: ' ' :: l) = false := rfl
  have h3 : ("bearer ".data).isPrefixOf ('r' :: 'e' :: 'r' :: ' ' :: l) = false := rfl
  have h4 : ("bearer ".data).isPrefixOf ('e' :: 'r' :: ' ' :: l) = false := rfl
  have h5 : ("bearer ".data).isPrefixOf ('r' :: ' ' :: l) = false := rfl
  have h6 : ("bearer ".data).isPrefixOf (' ' :: l) = false := rfl
  show countSub "bearer ".data ('b' :: 'e' :: 'a' :: 'r' :: 'e' :: 'r' :: ' ' :: l) = _
  simp [countSub, hb, h1, h2, h3, h4, h5, h6]

theorem countSub_bearer_pos (l : List Char)
    (h : ("bearer ".data).isPrefixOf l = true) : 1 ≤ countSub "bearer ".data l := by
  cases l with
  | nil => simp [List.isPrefixOf] at h
  | cons c t => simp only [countSub, h, if_true]; omega

theorem processRow_step (net : String → FetchResult) (r : Row) :
    processRow net r = if skipB r then none else some (emittedOutcome net r) := by
  unfold processRow skipB
  cases rowGet r "Deal ID" with
  | none => rfl
  | some v => cases v <;> rfl

theorem processRows_eq (net : String → FetchResult) (rows : List Row) :
    processRows net rows = (rows.filter (fun r => !skipB r)).map (emittedOutcome net) := by
  induction rows with
  | nil => rfl
  | cons r rs ih =>
    show (match processRow net r with
      | none => processRows net rs
      | some o => o :: processRows net rs) = _
    rw [processRow_step]
    cases hs : skipB r <;> simp [hs, ih, List.filter_cons]

theorem rowOutcome_status (deal_id : Scalar) (row : Row) (api_data : Option ApiData) :
    (rowOutcome deal_id row api_data).status = "PASS" ∨
    (rowOutcome deal_id row api_data).status = "FAIL" ∨
    (rowOutcome deal_id row api_data).status = "ERROR" := by
  unfold rowOutcome
  dsimp only
  split
  · split
    · exact Or.inl rfl
    · exact Or.inr (Or.inl rfl)
  · exact Or.inr (Or.inr rfl)

theorem emittedOutcome_status (net : String → FetchResult) (r : Row) :
    (emittedOutcome net r).status = "PASS" ∨ (emittedOutcome net r).status = "FAIL" ∨
    (emittedOutcome net r).status = "ERROR" :=
  rowOutcome_status _ _ _

/-- A network oracle whose every request fails, as when the host is down. -/
def netRefused : String → FetchResult := fun _ => .err "Connection refused"

/-! ### Claim theorems -/

/-- Claim C1, counterexample.  A successful fetch whose JSON body is the
empty object is classified ERROR by `main` (line 159 tests `if api_data:`,
and the empty dict is falsy), so a successfully fetched Remote Record does
not always lead to PASS or FAIL as the claim states. -/
theorem status_error_on_empty_body :
    (rowOutcome (Scalar.str "D1") [("Deal ID", Scalar.str "D1")]
      (some ([] : ApiData))).status = "ERROR" ∧
    (rowOutcome (Scalar.str "D1") [("Deal ID", Scalar.str "D1")]
      (some ([] : ApiData))).status ≠ "PASS" ∧
    (rowOutcome (Scalar.str "D1") [("Deal ID", Scalar.str "D1")]
      (some ([] : ApiData))).status ≠ "FAIL" :=
  ⟨rfl, by decide, by decide⟩

/-- Claim C1, amended.  For a processed row, the status is ERROR iff the
fetch failed or returned an empty (falsy) JSON object; FAIL iff a non-empty
record was fetched and the Comparator returned at least one discrepancy;
PASS iff a non-empty record was fetched with zero discrepancies. -/
theorem status_classification (deal_id : Scalar) (row : Row) (api_data : Option ApiData) :
    ((rowOutcome deal_id row api_data).status = "ERROR" ↔
      (api_data = none ∨ api_data = some [])) ∧
    ((rowOutcome deal_id row api_data).status = "FAIL" ↔
      ∃ d, api_data = some d ∧ d ≠ [] ∧ validate_deal row d ≠ []) ∧
    ((rowOutcome deal_id row api_data).status = "PASS" ↔
      ∃ d, api_data = some d ∧ d ≠ [] ∧ validate_deal row d = []) := by
  cases api_data with
  | none => simp [rowOutcome, pyTruthy]
  | some d =>
    by_cases hd : d = []
    · subst hd; simp [rowOutcome, pyTruthy]
    · have hni : d.isEmpty = false := by simp [List.isEmpty_iff, hd]
      by_cases hv : validate_deal row d = []
      · have hvi : (validate_deal row d).isEmpty = true := by simp [List.isEmpty_iff, hv]
        simp [rowOutcome, pyTruthy, hni, hvi, hd, hv]
      · have hvi : (validate_deal row d).isEmpty = false := by simp [List.isEmpty_iff, hv]
        simp [rowOutcome, pyTruthy, hni, hvi, hd, hv]

/-- Claim C2.  The emitted outcomes are exactly the per-row outcomes of the
rows whose skip test is false, in original input order; and the skip test
holds iff the identifier cell is missing, NaN, or its string form strips to
the empty string. -/
theorem skip_rule_and_order (net : String → FetchResult) (rows : List Row) :
    processRows net rows = (rows.filter (fun r => !skipB r)).map (emittedOutcome net) ∧
    (∀ r : Row, skipB r = true ↔
      (rowGet r "Deal ID" = none ∨ rowGet r "Deal ID" = some .nan ∨
        ∃ v, rowGet r "Deal ID" = some v ∧ pyStrip (pyStr v) = "")) := by
  refine ⟨processRows_eq net rows, fun r => ?_⟩
  unfold skipB
  cases h : rowGet r "Deal ID" with
  | none => simp
  | some v => cases v <;> simp

/-- Claim C3, counterexample.  When every input row is skipped, `results`
is the empty list, `pd.DataFrame([])` has no columns at all, and the written
sheet therefore lacks the three claimed header cells. -/
theorem report_columns_empty_when_all_skipped :
    processRows netRefused [[("Deal ID", Scalar.nan)]] = [] ∧
    reportColumns (processRows netRefused [[("Deal ID", Scalar.nan)]]) = [] ∧
    reportColumns (processRows netRefused [[("Deal ID", Scalar.nan)]]) ≠
      ["Deal ID", "Status", "Comments"] :=
  ⟨rfl, rfl, by decide⟩

/-- Claim C3, amended.  If at least one row survives the skip test, the
written sheet has exactly the columns [Deal ID, Status, Comments] and one
data line per non-skipped input row in original order; if every row is
skipped, the result list is empty and the sheet has no columns. -/
theorem report_shape (net : String → FetchResult) (rows : List Row) :
    (processRows net rows = [] → reportColumns (processRows net rows) = []) ∧
    (processRows net rows ≠ [] →
      reportColumns (processRows net rows) = ["Deal ID", "Status", "Comments"]) ∧
    reportTable (processRows net rows) =
      ((rows.filter (fun r => !skipB r)).map (emittedOutcome net)).map
        (fun o => [pyStr o.deal_id, o.status, o.comments]) ∧
    (reportTable (processRows net rows)).length =
      (rows.filter (fun r => !skipB r)).length := by
  refine ⟨fun h => by simp [reportColumns, h], fun h => ?_, ?_, ?_⟩
  · have hne : (processRows net rows).isEmpty = false := by
      simp [List.isEmpty_iff, h]
    simp [reportColumns, hne]
  · rw [processRows_eq]; rfl
  · rw [processRows_eq]; simp [reportTable]

/-- Claim C4, counterexample.  A credential that already starts with
"Bearer " is left untouched, but when it contains a further "Bearer "
occurrence the emitted header holds two case-insensitive occurrences, not
exactly one as the claim states. -/
theorem bearer_double_token :
    startsWithL (lowerAscii "Bearer Bearer x") "bearer " = true ∧
    authHeader "Bearer Bearer x" = "Bearer Bearer x" ∧
    bearerCount (authHeader "Bearer Bearer x") = 2 := by decide

/-- Claim C4, amended.  The Authorization header always starts
(case-insensitively) with "Bearer "; a credential already so prefixed is
sent unchanged, any other credential gets exactly one "Bearer " prepended;
and for a credential containing no case-insensitive "Bearer " occurrence at
all, the header contains exactly one. -/
theorem auth_header_spec (t : String) :
    startsWithL (lowerAscii (authHeader t)) "bearer " = true ∧
    (startsWithL (lowerAscii t) "bearer " = true → authHeader t = t) ∧
    (startsWithL (lowerAscii t) "bearer " = false → authHeader t = "Bearer " ++ t) ∧
    (bearerCount t = 0 → bearerCount (authHeader t) = 1) := by
  cases hb : startsWithL (lowerAscii t) "bearer " with
  | true =>
    have ha : authHeader t = t := by simp [authHeader, hb]
    refine ⟨by rw [ha]; exact hb, fun _ => ha, fun h => absurd h (by decide),
      fun h0 => ?_⟩
    have hpos : 1 ≤ bearerCount t := countSub_bearer_pos _ hb
    omega
  | false =>
    have ha : authHeader t = "Bearer " ++ t := by simp [authHeader, hb]
    have hl : lowerAscii ("Bearer " ++ t) = "bearer " ++ lowerAscii t :=
      lowerAscii_bearer t
    have hdata : ("bearer " ++ lowerAscii t).data =
        "bearer ".data ++ (lowerAscii t).data := rfl
    refine ⟨?_, fun h => absurd h (by decide), fun _ => ha, fun h0 => ?_⟩
    · rw [ha]
      show ("bearer ".data).isPrefixOf (lowerAscii ("Bearer " ++ t)).data = true
      rw [hl, hdata]
      exact isPrefixOf_append_self _ _
    · rw [ha]
      show countSub "bearer ".data (lowerAscii ("Bearer " ++ t)).data = 1
      rw [hl, hdata, countSub_bearer]
      have hz : countSub "bearer ".data (lowerAscii t).data = 0 := h0
      rw [hz]

/-- Claim C5, counterexample.  On a failed fetch the caught error's text is
only printed; the row's comments field gets the fixed string
"API Request Failed", not the error text. -/
theorem error_comment_not_error_text :
    (get_deal_details "D7" (.err "Connection refused")).1 =
      ["Error fetching deal D7: Connection refused"] ∧
    (rowOutcome (Scalar.str "D7") [("Deal ID", Scalar.str "D7")]
      (get_deal_details "D7" (.err "Connection refused")).2).comments =
        "API Request Failed" ∧
    ("API Request Failed" : String) ≠ "Connection refused" :=
  ⟨rfl, rfl, by decide⟩

/-- Claim C5, amended.  A failed fetch is caught locally and never aborts
the run: the row still yields exactly one Outcome with status ERROR and the
fixed comment "API Request Failed", the error text is printed to the
console, and processing continues with the remaining rows. -/
theorem fetch_failure_continues (net : String → FetchResult) (row : Row)
    (rows : List Row) (v : Scalar) (e : String)
    (hid : rowGet row "Deal ID" = some v) (hv : v ≠ .nan)
    (hne : (pyStrip (pyStr v) == "") = false) (hfail : net (pyStr v) = .err e) :
    processRows net (row :: rows) = rowOutcome v row none :: processRows net rows ∧
    (rowOutcome v row none).status = "ERROR" ∧
    (rowOutcome v row none).comments = "API Request Failed" ∧
    (get_deal_details (pyStr v) (net (pyStr v))).1 =
      ["Error fetching deal " ++ pyStr v ++ ": " ++ e] := by
  have hemit : emittedOutcome net row = rowOutcome v row none := by
    unfold emittedOutcome
    rw [hid]
    simp only [Option.getD_some]
    rw [hfail]
    rfl
  have hpr : processRow net row = some (rowOutcome v row none) := by
    unfold processRow
    rw [hid]
    cases v with
    | nan => exact absurd rfl hv
    | str s => simp [hne, hemit]
    | int n => simp [hne, hemit]
    | ts y m d => simp [hne, hemit]
  refine ⟨?_, rfl, rfl, by rw [hfail]; rfl⟩
  show (match processRow net row with
    | none => processRows net rows
    | some o => o :: processRows net rows) = _
  rw [hpr]

/-- Claim C5, witness. -/
theorem fetch_failure_continues_witness :
    processRows netRefused ([("Deal ID", Scalar.str "D7")] :: []) =
      rowOutcome (Scalar.str "D7") [("Deal ID", Scalar.str "D7")] none ::
        processRows netRefused [] ∧
    (rowOutcome (Scalar.str "D7") [("Deal ID", Scalar.str "D7")] none).status = "ERROR" ∧
    (rowOutcome (Scalar.str "D7") [("Deal ID", Scalar.str "D7")] none).comments =
      "API Request Failed" ∧
    (get_deal_details (pyStr (Scalar.str "D7"))
        (netRefused (pyStr (Scalar.str "D7")))).1 =
      ["Error fetching deal " ++ pyStr (Scalar.str "D7") ++ ": " ++ "Connection refused"] :=
  fetch_failure_continues netRefused [("Deal ID", Scalar.str "D7")] []
    (Scalar.str "D7") "Connection refused" rfl (by decide) (by decide) rfl

/-- Claim C6.  `normalize_date` is total: it yields the `none` marker exactly
on missing/NaN input (and that marker differs from every string result), a
string containing no "T" and no space that `fromisoformat` rejects comes
back as itself, and a non-date scalar comes back as its literal string
form — no input raises. -/
theorem normalize_date_total :
    (∀ o : Option Scalar, normalize_date o = none ↔ pdIsNa o = true) ∧
    (∀ s : String, normalize_date none ≠ some s) ∧
    (∀ s : String, hasChar s 'T' = false → hasChar s ' ' = false →
      fromisoformat s = none → normalize_date (some (.str s)) = some s) ∧
    (∀ n : Int, normalize_date (some (.int n)) = some (toString n)) := by
  refine ⟨fun o => ?_, fun s => by simp [normalize_date],
    fun s hT hS hp => by simp [normalize_date, hT, hS, hp], fun n => rfl⟩
  cases o with
  | none => simp [normalize_date, pdIsNa]
  | some v =>
    cases v with
    | nan => simp [normalize_date, pdIsNa]
    | str s =>
      simp only [normalize_date, pdIsNa]
      constructor
      · intro h
        exfalso
        revert h
        split
        · simp
        · split
          · simp
          · split <;> simp
      · intro h; cases h
    | int n => simp [normalize_date, pdIsNa]
    | ts y m d => simp [normalize_date, pdIsNa]

/-- Claim C7.  Normalizing a string already in canonical `YYYY-MM-DD` form
returns it unchanged, so date normalization is idempotent on canonical
input. -/
theorem normalize_date_idempotent (y m d : Nat) (h : validDateB y m d = true) :
    normalize_date (some (.str (renderDate y m d))) = some (renderDate y m d) := by
  have hT := (renderDate_hasChar y m d).1
  have hS := (renderDate_hasChar y m d).2
  simp [normalize_date, hT, hS, fromisoformat_renderDate y m d h]

/-- Claim C7, witness. -/
theorem normalize_date_idempotent_witness :
    validDateB 2019 3 22 = true ∧
    normalize_date (some (.str (renderDate 2019 3 22))) = some (renderDate 2019 3 22) :=
  ⟨by decide, normalize_date_idempotent 2019 3 22 (by decide)⟩

/-- Claim C8.  A string without "T" or a space that the date parser accepts
is reformatted to the canonical `YYYY-MM-DD` rendering of the parsed date
(not passed through as-is). -/
theorem normalize_date_reformats (s : String) (y m d : Nat)
    (hT : hasChar s 'T' = false) (hS : hasChar s ' ' = false)
    (hp : fromisoformat s = some (y, m, d)) :
    normalize_date (some (.str s)) = some (renderDate y m d) := by
  simp [normalize_date, hT, hS, hp]

/-- Claim C8, witness: the parseable basic-format string "20190322" is
rewritten to "2019-03-22" rather than passed through. -/
theorem normalize_date_reformats_witness :
    hasChar "20190322" 'T' = false ∧ hasChar "20190322" ' ' = false ∧
    fromisoformat "20190322" = some (2019, 3, 22) ∧
    normalize_date (some (.str "20190322")) = some (renderDate 2019 3 22) ∧
    renderDate 2019 3 22 = "2019-03-22" :=
  ⟨by decide, by decide, by decide,
    normalize_date_reformats "20190322" 2019 3 22 (by decide) (by decide) (by decide),
    by decide⟩

/-- Claim C9.  For any field check, a missing/NaN row value together with an
absent, null, or empty-string remote value stringifies to "" on both sides
and produces no discrepancy — in particular a row with `Deal Name` missing
against a record without a `name` key. -/
theorem missing_values_compare_equal (row : Row) (api_data : ApiData)
    (c : FieldCheck)
    (hrow : rowGet row c.excel_col = none ∨ rowGet row c.excel_col = some .nan)
    (hapi : apiGet api_data c.api_field = none ∨
      apiGet api_data c.api_field = some (.str "")) :
    evalCheck row api_data c = none := by
  have hex : strOfExcel (if c.is_date
      then (normalize_date (rowGet row c.excel_col)).map .str
      else rowGet row c.excel_col) = "" := by
    rcases hrow with h | h <;> rw [h] <;> cases c.is_date <;>
      simp [normalize_date, strOfExcel]
  have hap : strOfApi (if c.is_date
      then (normalize_date (apiGet api_data c.api_field)).map .str
      else apiGet api_data c.api_field) = "" := by
    rcases hapi with h | h <;> rw [h] <;> cases c.is_date <;>
      simp [normalize_date, strOfApi, hasChar, fromisoformat, pyStr]
  unfold evalCheck
  dsimp only
  rw [hex, hap]
  simp

/-- Claim C9, witness: the `Deal Name` check on an empty row against an
empty record. -/
theorem missing_values_compare_equal_witness :
    evalCheck [] []
      { excel_col := "Deal Name", api_field := "name", label := "Deal Name" } = none :=
  missing_values_compare_equal [] []
    { excel_col := "Deal Name", api_field := "name", label := "Deal Name" }
    (Or.inl rfl) (Or.inl rfl)

/-- Claim C10.  Every outcome the loop appends has status PASS, FAIL, or
ERROR: the initial "SKIPPED" default is overwritten on every path, so
"SKIPPED" never reaches the written report. -/
theorem status_never_skipped (net : String → FetchResult) (rows : List Row)
    (o : Outcome) (ho : o ∈ processRows net rows) :
    (o.status = "PASS" ∨ o.status = "FAIL" ∨ o.status = "ERROR") ∧
    o.status ≠ "SKIPPED" := by
  rw [processRows_eq] at ho
  obtain ⟨r, -, rfl⟩ := List.mem_map.mp ho
  refine ⟨emittedOutcome_status net r, ?_⟩
  rcases emittedOutcome_status net r with h | h | h <;> rw [h] <;> decide

/-- Claim C10, witness. -/
theorem status_never_skipped_witness :
    ((rowOutcome (Scalar.str "D1") [("Deal ID", Scalar.str "D1")] none).status = "PASS" ∨
      (rowOutcome (Scalar.str "D1") [("Deal ID", Scalar.str "D1")] none).status = "FAIL" ∨
      (rowOutcome (Scalar.str "D1") [("Deal ID", Scalar.str "D1")] none).status = "ERROR") ∧
    (rowOutcome (Scalar.str "D1") [("Deal ID", Scalar.str "D1")] none).status ≠ "SKIPPED" :=
  status_never_skipped netRefused [[("Deal ID", Scalar.str "D1")]]
    (rowOutcome (Scalar.str "D1") [("Deal ID", Scalar.str "D1")] none) (by decide)

end DealQA
